import Mathlib

/-!
Shallow embedding of the verification-job lifecycle of the
starknet-contract-verifier client (crates/cli/src/api.rs and
crates/dyn-compiler/src/dyn_compiler.rs).

External effects are made explicit parameters:
* the process environment is a lookup function from variable names to
  optional values (mirroring std::env::var, which fails when unset);
* the filesystem is a lookup function from paths to optional contents
  (mirroring fs::read_to_string, where none models a read error);
* each HTTP exchange is represented by the response the server would give,
  carrying the numeric status code and the body text; for the status-poll
  endpoint the serde-decoded job record is carried alongside, with none
  modelling a body that fails to decode as a VerificationJob.
Rust panics (unreachable protocol states) are modelled as distinguished
error outcomes, never as silently coerced values.
-/

/-- The process environment: variable name to optional value,
mirroring std::env::var. -/
abbrev Env := String → Option String

/-- Rust str::to_lowercase, modelled per character (this agrees with the
Rust function on ASCII input, which is all the call sites compare
against); defined over the character list so concrete instances
evaluate. -/
def str_to_lowercase (s : String) : String := ⟨s.data.map Char.toLower⟩

/-- Network, from crates/cli/src/api.rs lines 13-19. -/
inductive Network where
  | Mainnet
  | Sepolia
  | Local
  | Custom
deriving DecidableEq, Repr

/-- The Display implementation for Network (api.rs lines 21-30). -/
def Network.toString : Network → String
  | .Mainnet => "mainnet"
  | .Sepolia => "sepolia"
  | .Local => "local"
  | .Custom => "custom"

/-- The FromStr implementation for Network (api.rs lines 32-44): it
lowercases the input and matches the four fixed strings, erring with an
Unknown-network message otherwise. -/
def Network.from_str (s : String) : Except String Network :=
  let l := str_to_lowercase s
  if l = "mainnet" then .ok .Mainnet
  else if l = "sepolia" then .ok .Sepolia
  else if l = "local" then .ok .Local
  else if l = "custom" then .ok .Custom
  else .error ("Unknown network: " ++ s)

/-- VerifyJobStatus, from api.rs lines 46-53. -/
inductive VerifyJobStatus where
  | Submitted
  | Compiled
  | CompileFailed
  | Fail
  | Success
deriving DecidableEq, Repr

/-- VerifyJobStatus::from_u8 (api.rs lines 55-66).  The wire status byte is
a Nat here; the Rust wildcard arm panics, which the embedding renders as
none (no status value is ever produced for an out-of-range integer). -/
def VerifyJobStatus.from_u8 : Nat → Option VerifyJobStatus
  | 0 => some .Submitted
  | 1 => some .Compiled
  | 2 => some .CompileFailed
  | 3 => some .Fail
  | 4 => some .Success
  | _ => none

/-- get_network_api (api.rs lines 109-131): maps a network selector to the
pair (internal url, public url).  The Custom arms read the two override
variables from the environment and substitute the empty string when the
lookup fails. -/
def get_network_api (env : Env) (network : Network) : String × String :=
  let url : String :=
    match network with
    | .Mainnet => "https://voyager.online"
    | .Sepolia => "https://sepolia.voyager.online"
    | .Local => "http://localhost:8899"
    | .Custom =>
      match env "CUSTOM_INTERNAL_API_ENDPOINT_URL" with
      | some u => u
      | none => ""
  let public_url : String :=
    match network with
    | .Mainnet => "https://api.voyager.online/beta"
    | .Sepolia => "https://sepolia-api.voyager.online/beta"
    | .Local => "http://localhost:30380"
    | .Custom =>
      match env "CUSTOM_PUBLIC_API_ENDPOINT_URL" with
      | some u => u
      | none => ""
  (url, public_url)

/-- An HTTP response as the client observes it: numeric status code and
body text. -/
structure HttpResponse where
  status : Nat
  body : String
deriving DecidableEq, Repr

/-- does_class_exist (api.rs lines 165-178), abstracted over the response
the GET to the class endpoint produces: 200 is true, 404 is false, and any
other status is an error carrying the status code and the body text. -/
def does_class_exist (response : HttpResponse) : Except String Bool :=
  if response.status = 200 then .ok true
  else if response.status = 404 then .ok false
  else .error ("Unexpected status code " ++ Nat.repr response.status ++
    " when trying to get class hash with error " ++ response.body)

/-- SupportedCairoVersions, from crates/dyn-compiler/src/dyn_compiler.rs. -/
inductive SupportedCairoVersions where
  | V2_5_0
deriving DecidableEq, Repr

/-- ToString for SupportedCairoVersions (dyn_compiler.rs lines 9-15). -/
def SupportedCairoVersions.toString : SupportedCairoVersions → String
  | .V2_5_0 => "2.5.0"

/-- SupportedScarbVersions, from crates/dyn-compiler/src/dyn_compiler.rs. -/
inductive SupportedScarbVersions where
  | V2_5_0
deriving DecidableEq, Repr

/-- ToString for SupportedScarbVersions (dyn_compiler.rs lines 22-36). -/
def SupportedScarbVersions.toString : SupportedScarbVersions → String
  | .V2_5_0 => "2.5.0"

/-- FileInfo (api.rs lines 159-163); the path is kept as a string key into
the modelled filesystem. -/
structure FileInfo where
  name : String
  path : String
deriving DecidableEq, Repr

/-- ProjectMetadataInfo (api.rs lines 180-186). -/
structure ProjectMetadataInfo where
  cairo_version : SupportedCairoVersions
  scarb_version : SupportedScarbVersions
  project_dir_path : String
  contract_file : String
deriving DecidableEq, Repr

/-- The filesystem as dispatch sees it: fs::read_to_string succeeds with
the file content or fails (none). -/
abbrev FileSystem := String → Option String

/-- Modelled from the spec: serde JSON decoding of the flat one-field
response bodies given in the external-interface section, namely
\x7b "job_id": string \x7d on dispatch success and \x7b "error": string \x7d
on a 400 answer (the serde library itself is not part of src/).  Extracts
the string value of the single field when the body has exactly that shape,
and fails otherwise. -/
def extractStringField (key s : String) : Option String :=
  let pre := ("\x7b\"" ++ key ++ "\":\"").data
  let suf := ("\"\x7d").data
  if pre.isPrefixOf s.data && suf.isSuffixOf s.data &&
      pre.length + 2 ≤ s.data.length then
    some ⟨(s.data.drop pre.length).dropLast.dropLast⟩
  else none

/-- The six fixed multipart fields dispatch_class_verification_job writes
before the per-file fields (api.rs lines 198-208). -/
def baseFields (meta : ProjectMetadataInfo) (license name : String) :
    List (String × String) :=
  [("compiler_version", meta.cairo_version.toString),
   ("scarb_version", meta.scarb_version.toString),
   ("license", license),
   ("name", name),
   ("contract_file", meta.contract_file),
   ("project_dir_path", meta.project_dir_path)]

/-- The file loop of dispatch_class_verification_job (api.rs lines
210-213): each file is read in full and appended to the form as a field
named files__<name>; the first failing read aborts the whole build. -/
def addFileFields (fs : FileSystem) (fields : List (String × String)) :
    List FileInfo → Option (List (String × String))
  | [] => some fields
  | f :: rest =>
    match fs f.path with
    | none => none
    | some content =>
      addFileFields fs (fields ++ [("files__" ++ f.name, content)]) rest

/-- The possible outcomes of dispatch_class_verification_job.  The Rust
function returns Result String, so every failure is a message; the
constructors keep the distinguishing data and DispatchResult.message
renders the anyhow text. -/
inductive DispatchResult where
  /-- 200 and the body parsed: the job id. -/
  | ok (jobId : String)
  /-- fs::read_to_string failed on some file, before any request was sent. -/
  | ioError
  /-- 404 from the server. -/
  | jobNotFound
  /-- 400 from the server with a parsed error body. -/
  | badRequest (msg : String)
  /-- 400 from the server whose body did not decode as an ApiError. -/
  | decodeError
  /-- any other status: the raw code and body text. -/
  | unknownStatus (code : Nat) (body : String)
  /-- 200 whose body did not decode as a VerificationJobDispatch; the Rust
  code unwraps and panics here. -/
  | panicBadBody
deriving DecidableEq, Repr

/-- The anyhow message text of each dispatch outcome (api.rs lines
226-250); the arms whose Rust text comes from a library error (I/O,
decode, unwrap) carry a fixed description here, since only their kind is
observable to the caller. -/
def DispatchResult.message : DispatchResult → String
  | .ok jobId => jobId
  | .ioError => "I/O error reading a file to submit"
  | .jobNotFound => "Job not found"
  | .badRequest msg =>
    "Failed to dispatch verification job with status 400: " ++ msg
  | .decodeError => "error decoding response body"
  | .unknownStatus code body =>
    "Failed to dispatch verification job with status " ++ Nat.repr code ++
      ": " ++ body
  | .panicBadBody => "called Option::unwrap on a None value"

/-- dispatch_class_verification_job (api.rs lines 188-251), abstracted
over the filesystem and over the response the single POST would produce.
The second component counts the HTTP requests issued (0 when a file read
fails first, 1 otherwise): the form body is built, with every file read in
full, before the POST is sent, and the outcome is then decided by the
response status: 200 parses the job id, 404 is job-not-found, 400 parses
the structured error body, anything else carries the raw status and body
text. -/
def dispatch_class_verification_job (fs : FileSystem)
    (meta : ProjectMetadataInfo) (license name : String)
    (files : List FileInfo) (response : HttpResponse) :
    DispatchResult × Nat :=
  match addFileFields fs (baseFields meta license name) files with
  | none => (.ioError, 0)
  | some _body =>
    if response.status = 200 then
      match extractStringField "job_id" response.body with
      | some id => (.ok id, 1)
      | none => (.panicBadBody, 1)
    else if response.status = 404 then (.jobNotFound, 1)
    else if response.status = 400 then
      match extractStringField "error" response.body with
      | some e => (.badRequest e, 1)
      | none => (.decodeError, 1)
    else (.unknownStatus response.status response.body, 1)

/-- VerificationJob (api.rs lines 144-157): the server-reported job
record.  Timestamps are f64 in the source and are carried opaquely. -/
structure VerificationJob where
  job_id : String
  status : Nat
  status_description : Option String
  class_hash : String
  created_timestamp : Option Float
  updated_timestamp : Option Float
  address : Option String
  contract_file : Option String
  name : Option String
  version : Option String
  license : Option String

/-- One response to a status GET of the poll loop: the HTTP status code,
the body text (used in error messages), and the result of serde-decoding
the body as a VerificationJob (none when the decode fails, the question
mark on result.json in the source). -/
structure PollResponse where
  status : Nat
  text : String
  job : Option VerificationJob

/-- The error outcomes poll_verification_status can produce (api.rs lines
279-323).  verifyFail and compileFail carry the description the anyhow
message interpolates: the record's status_description, or the fixed
placeholder when absent. -/
inductive PollError where
  /-- 404 from the server: the Job-not-found error. -/
  | jobNotFound
  /-- any other non-200 status: the raw code and body text. -/
  | unexpectedStatus (code : Nat) (body : String)
  /-- a 200 body that does not decode as a VerificationJob. -/
  | decodeError
  /-- VerifyJobStatus::from_u8 hit its wildcard arm: the Rust code panics
  on this out-of-range wire status. -/
  | statusPanic (wire : Nat)
  /-- terminal Fail status: the generic verification-failure error. -/
  | verifyFail (description : String)
  /-- terminal CompileFailed status: the compilation-failure error. -/
  | compileFail (description : String)
  /-- the bounded-retry ceiling was exceeded: the Timeout error. -/
  | timeout

/-- What a run of the poll loop produced: a terminal success carrying the
full job record, an error, or exhaustion of the supplied response
sequence while the loop was still going to poll again. -/
inductive PollOutcome where
  | success (job : VerificationJob)
  | failure (e : PollError)
  | exhausted

/-- The loop body of poll_verification_status (api.rs lines 274-318),
run against a finite sequence of responses; retries is the counter's
current value.  Returns the outcome together with the number of status
requests issued and the number of inter-poll sleeps performed.  Each
iteration consumes one response; a non-200 status or a terminal decoded
status returns at once with no sleep; a non-terminal status increments
the counter, breaks with the timeout error when bounded retries are on
and the counter exceeds the ceiling, and otherwise sleeps once and
loops. -/
def pollGo (use_max : Bool) (max_retries : Nat) :
    List PollResponse → Nat → PollOutcome × Nat × Nat
  | [], _ => (.exhausted, 0, 0)
  | r :: rest, retries =>
    if r.status = 200 then
      match r.job with
      | none => (.failure .decodeError, 1, 0)
      | some data =>
        match VerifyJobStatus.from_u8 data.status with
        | some .Success => (.success data, 1, 0)
        | some .Fail =>
          (.failure (.verifyFail
            (data.status_description.getD "unknown failure")), 1, 0)
        | some .CompileFailed =>
          (.failure (.compileFail
            (data.status_description.getD "unknown failure")), 1, 0)
        | some _ =>
          if use_max && max_retries < retries + 1 then
            (.failure .timeout, 1, 0)
          else
            let next := pollGo use_max max_retries rest (retries + 1)
            (next.1, next.2.1 + 1, next.2.2 + 1)
        | none => (.failure (.statusPanic data.status), 1, 0)
    else if r.status = 404 then (.failure .jobNotFound, 1, 0)
    else (.failure (.unexpectedStatus r.status r.text), 1, 0)

/-- The USE_POLLING_MAX_RETRIES flag read at the top of
poll_verification_status (api.rs lines 269-272): set when the variable is
present and its lowercased value is the string true. -/
def use_max_retries (env : Env) : Bool :=
  match env "USE_POLLING_MAX_RETRIES" with
  | some value => str_to_lowercase value = "true"
  | none => false

/-- poll_verification_status (api.rs lines 253-324), abstracted over the
environment and the sequence of responses the status endpoint would give:
reads the bounded-retry flag, then runs the poll loop with the retry
counter starting at zero. -/
def poll_verification_status (env : Env) (max_retries : Nat)
    (responses : List PollResponse) : PollOutcome × Nat × Nat :=
  pollGo (use_max_retries env) max_retries responses 0

/-- Claim C2: VerifyJobStatus.from_u8 maps the wire integers 0, 1, 2, 3, 4
to Submitted, Compiled, CompileFailed, Fail, Success respectively, and for
every integer outside 0-4 the decode is fatal: no status value is ever
produced (the Rust code panics on the wildcard arm, never silently
coercing). -/
theorem from_u8_decode_table :
    VerifyJobStatus.from_u8 0 = some .Submitted ∧
    VerifyJobStatus.from_u8 1 = some .Compiled ∧
    VerifyJobStatus.from_u8 2 = some .CompileFailed ∧
    VerifyJobStatus.from_u8 3 = some .Fail ∧
    VerifyJobStatus.from_u8 4 = some .Success ∧
    ∀ n : Nat, 4 < n → VerifyJobStatus.from_u8 n = none := by
  refine ⟨rfl, rfl, rfl, rfl, rfl, fun n hn => ?_⟩
  obtain ⟨m, rfl⟩ : ∃ m, n = m + 5 := ⟨n - 5, by omega⟩
  rfl

/-- Witness for the decode table at the concrete out-of-range wire
value 9. -/
theorem from_u8_decode_table_witness :
    VerifyJobStatus.from_u8 9 = none :=
  from_u8_decode_table.2.2.2.2.2 9 (by decide)

/-- Claim C7: get_network_api is total; Mainnet, Sepolia and Local map to
fixed hardcoded url pairs independent of the environment, while Custom
returns exactly the two environment-supplied override values,
substituting the empty string for each slot whose variable is absent, and
never fails. -/
theorem get_network_api_spec (env : Env) :
    get_network_api env .Mainnet =
      ("https://voyager.online", "https://api.voyager.online/beta") ∧
    get_network_api env .Sepolia =
      ("https://sepolia.voyager.online",
       "https://sepolia-api.voyager.online/beta") ∧
    get_network_api env .Local =
      ("http://localhost:8899", "http://localhost:30380") ∧
    (∀ u, env "CUSTOM_INTERNAL_API_ENDPOINT_URL" = some u →
      (get_network_api env .Custom).1 = u) ∧
    (env "CUSTOM_INTERNAL_API_ENDPOINT_URL" = none →
      (get_network_api env .Custom).1 = "") ∧
    (∀ u, env "CUSTOM_PUBLIC_API_ENDPOINT_URL" = some u →
      (get_network_api env .Custom).2 = u) ∧
    (env "CUSTOM_PUBLIC_API_ENDPOINT_URL" = none →
      (get_network_api env .Custom).2 = "") := by
  refine ⟨rfl, rfl, rfl, fun u h => ?_, fun h => ?_, fun u h => ?_,
    fun h => ?_⟩ <;> simp [get_network_api, h]

/-- Witness for get_network_api_spec with the internal override present
and the public override absent. -/
theorem get_network_api_spec_witness :
    (get_network_api
      (fun k => if k = "CUSTOM_INTERNAL_API_ENDPOINT_URL"
                then some "https://internal.example" else none)
      .Custom).1 = "https://internal.example" ∧
    (get_network_api
      (fun k => if k = "CUSTOM_INTERNAL_API_ENDPOINT_URL"
                then some "https://internal.example" else none)
      .Custom).2 = "" :=
  ⟨(get_network_api_spec _).2.2.2.1 "https://internal.example" (by decide),
   (get_network_api_spec _).2.2.2.2.2.2 (by decide)⟩

/-- Claim C9: does_class_exist answers true on a 200 response, false on a
404, and an error carrying the unexpected status code and the body text
on any other status. -/
theorem does_class_exist_spec (r : HttpResponse) :
    (r.status = 200 → does_class_exist r = .ok true) ∧
    (r.status = 404 → does_class_exist r = .ok false) ∧
    (r.status ≠ 200 → r.status ≠ 404 →
      does_class_exist r = .error ("Unexpected status code " ++
        Nat.repr r.status ++
        " when trying to get class hash with error " ++ r.body)) := by
  refine ⟨fun h => ?_, fun h => ?_, fun h1 h2 => ?_⟩
  · simp [does_class_exist, h]
  · simp [does_class_exist, h]
  · simp [does_class_exist, h1, h2]

/-- Witness for does_class_exist_spec at concrete 200, 404 and 500
responses. -/
theorem does_class_exist_spec_witness :
    does_class_exist ⟨200, ""⟩ = .ok true ∧
    does_class_exist ⟨404, ""⟩ = .ok false ∧
    does_class_exist ⟨500, "oops"⟩ = .error ("Unexpected status code " ++
      Nat.repr 500 ++ " when trying to get class hash with error " ++
      "oops") :=
  ⟨(does_class_exist_spec ⟨200, ""⟩).1 rfl,
   (does_class_exist_spec ⟨404, ""⟩).2.1 rfl,
   (does_class_exist_spec ⟨500, "oops"⟩).2.2 (by decide) (by decide)⟩

/-- Claim C10: Network.from_str inverts Network.toString, also on every
letter-casing variant of the display string (parsing lowercases its input
first), and every string that is not a casing variant of mainnet,
sepolia, local or custom yields the Unknown-network error. -/
theorem network_from_str_round_trip :
    (∀ n : Network, Network.from_str (Network.toString n) = .ok n) ∧
    (∀ (n : Network) (s : String),
      str_to_lowercase s = Network.toString n →
      Network.from_str s = .ok n) ∧
    (∀ s : String,
      (∀ n : Network, str_to_lowercase s ≠ Network.toString n) →
      Network.from_str s = .error ("Unknown network: " ++ s)) := by
  refine ⟨fun n => ?_, fun n s h => ?_, fun s h => ?_⟩
  · cases n <;> rfl
  · cases n <;> simp [Network.toString] at h <;>
      simp [Network.from_str, h]
  · have hm := h .Mainnet
    have hs := h .Sepolia
    have hl := h .Local
    have hc := h .Custom
    simp [Network.toString] at hm hs hl hc
    simp [Network.from_str, hm, hs, hl, hc]

/-- Witness for the round trip on a mixed-case variant and on an unknown
network name. -/
theorem network_from_str_round_trip_witness :
    Network.from_str "SePoLiA" = .ok .Sepolia ∧
    Network.from_str "goerli" = .error ("Unknown network: " ++ "goerli") :=
  ⟨network_from_str_round_trip.2.1 .Sepolia "SePoLiA" (by decide),
   network_from_str_round_trip.2.2 "goerli"
     (by intro n; cases n <;> decide)⟩

/-- When every listed file reads successfully, the file loop of dispatch
appends exactly one field per file, named files__<name>, holding that
file's full content, in order. -/
theorem addFileFields_eq_some (fs : FileSystem) (files : List FileInfo) :
    ∀ fields : List (String × String),
      (∀ f ∈ files, fs f.path ≠ none) →
      addFileFields fs fields files =
        some (fields ++ files.map
          (fun f => ("files__" ++ f.name, (fs f.path).getD ""))) := by
  induction files with
  | nil => intro fields _; simp [addFileFields]
  | cons f rest ih =>
    intro fields h
    cases hfc : fs f.path with
    | none => exact absurd hfc (h f (by simp))
    | some c =>
      simp only [addFileFields, hfc]
      rw [ih (fields ++ [("files__" ++ f.name, c)])
        (fun g hg => h g (by simp [hg]))]
      simp [hfc]

/-- When some listed file fails to read, the file loop of dispatch
produces no body. -/
theorem addFileFields_eq_none (fs : FileSystem) (files : List FileInfo) :
    ∀ fields : List (String × String),
      (∃ f ∈ files, fs f.path = none) →
      addFileFields fs fields files = none := by
  induction files with
  | nil => intro _ h; simp at h
  | cons f rest ih =>
    intro fields h
    cases hfc : fs f.path with
    | none => simp [addFileFields, hfc]
    | some c =>
      simp only [addFileFields, hfc]
      apply ih
      obtain ⟨g, hg, hgnone⟩ := h
      rcases List.mem_cons.mp hg with rfl | hmem
      · rw [hfc] at hgnone; exact absurd hgnone (by simp)
      · exact ⟨g, hmem, hgnone⟩

/-- Claim C8: dispatch_class_verification_job reads the full textual
content of every file in its list while building the request body, and a
failing read aborts with an I/O error before any HTTP request is issued:
with some unreadable file the request count is 0, and with all reads
succeeding the body holds one files__<name> field per file carrying its
full content and exactly one POST is sent. -/
theorem dispatch_reads_files_before_post (fs : FileSystem)
    (meta : ProjectMetadataInfo) (license name : String)
    (files : List FileInfo) (response : HttpResponse) :
    ((∃ f ∈ files, fs f.path = none) →
      dispatch_class_verification_job fs meta license name files response =
        (.ioError, 0)) ∧
    ((∀ f ∈ files, fs f.path ≠ none) →
      addFileFields fs (baseFields meta license name) files =
        some (baseFields meta license name ++ files.map
          (fun f => ("files__" ++ f.name, (fs f.path).getD ""))) ∧
      (dispatch_class_verification_job fs meta license name files
        response).2 = 1) := by
  constructor
  · intro h
    simp [dispatch_class_verification_job,
      addFileFields_eq_none fs files _ h]
  · intro h
    refine ⟨addFileFields_eq_some fs files _ h, ?_⟩
    simp only [dispatch_class_verification_job,
      addFileFields_eq_some fs files _ h]
    repeat' split
    all_goals rfl

/-- Witness for dispatch_reads_files_before_post: a one-file list whose
read fails yields the I/O error with zero requests issued. -/
theorem dispatch_reads_files_before_post_witness :
    dispatch_class_verification_job (fun _ => none)
      ⟨.V2_5_0, .V2_5_0, "dir", "main.cairo"⟩ "MIT" "counter"
      [⟨"main", "src/main.cairo"⟩] ⟨200, ""⟩ = (.ioError, 0) :=
  (dispatch_reads_files_before_post (fun _ => none)
      ⟨.V2_5_0, .V2_5_0, "dir", "main.cairo"⟩ "MIT" "counter"
      [⟨"main", "src/main.cairo"⟩] ⟨200, ""⟩).1
    ⟨⟨"main", "src/main.cairo"⟩, by simp, rfl⟩

/-- Claim C3: with every file readable, dispatch_class_verification_job
resolves its outcome solely from the HTTP response status: 200 with the
job_id body abc123 yields the job id abc123, 404 yields the job-not-found
failure, 400 with the error body bad license yields a failure whose
message carries bad license, and any other status yields a failure
carrying the raw status code and body text. -/
theorem dispatch_decision_table (fs : FileSystem)
    (meta : ProjectMetadataInfo) (license name : String)
    (files : List FileInfo) (hread : ∀ f ∈ files, fs f.path ≠ none) :
    (dispatch_class_verification_job fs meta license name files
      ⟨200, "\x7b\"job_id\":\"abc123\"\x7d"⟩).1 = .ok "abc123" ∧
    (∀ body, (dispatch_class_verification_job fs meta license name files
      ⟨404, body⟩).1 = .jobNotFound) ∧
    ((dispatch_class_verification_job fs meta license name files
      ⟨400, "\x7b\"error\":\"bad license\"\x7d"⟩).1 =
        .badRequest "bad license" ∧
      DispatchResult.message (.badRequest "bad license") =
        "Failed to dispatch verification job with status 400: " ++
          "bad license") ∧
    (∀ code body, code ≠ 200 → code ≠ 404 → code ≠ 400 →
      (dispatch_class_verification_job fs meta license name files
        ⟨code, body⟩).1 = .unknownStatus code body) := by
  have hsome :=
    addFileFields_eq_some fs files (baseFields meta license name) hread
  refine ⟨?_, fun body => ?_, ⟨?_, rfl⟩, fun code body h1 h2 h3 => ?_⟩
  · have he : extractStringField "job_id"
        "\x7b\"job_id\":\"abc123\"\x7d" = some "abc123" := by decide
    simp [dispatch_class_verification_job, hsome, he]
  · simp [dispatch_class_verification_job, hsome]
  · have he : extractStringField "error"
        "\x7b\"error\":\"bad license\"\x7d" = some "bad license" := by
      decide
    simp [dispatch_class_verification_job, hsome, he]
  · simp [dispatch_class_verification_job, hsome, h1, h2, h3]

/-- Witness for the dispatch decision table with an empty file list, at
the 200 response and at a 500 response. -/
theorem dispatch_decision_table_witness :
    (dispatch_class_verification_job (fun _ => none)
      ⟨.V2_5_0, .V2_5_0, "dir", "main.cairo"⟩ "MIT" "counter" []
      ⟨200, "\x7b\"job_id\":\"abc123\"\x7d"⟩).1 = .ok "abc123" ∧
    (dispatch_class_verification_job (fun _ => none)
      ⟨.V2_5_0, .V2_5_0, "dir", "main.cairo"⟩ "MIT" "counter" []
      ⟨500, "boom"⟩).1 = .unknownStatus 500 "boom" :=
  ⟨(dispatch_decision_table (fun _ => none)
      ⟨.V2_5_0, .V2_5_0, "dir", "main.cairo"⟩ "MIT" "counter" []
      (by simp)).1,
   (dispatch_decision_table (fun _ => none)
      ⟨.V2_5_0, .V2_5_0, "dir", "main.cairo"⟩ "MIT" "counter" []
      (by simp)).2.2.2 500 "boom" (by decide) (by decide) (by decide)⟩

/-- With the bounded-retry flag off, no run of the poll loop ever
produces the timeout error, whatever the ceiling, the responses and the
counter's start value. -/
theorem pollGo_no_timeout (max_retries : Nat)
    (responses : List PollResponse) :
    ∀ retries : Nat,
      (pollGo false max_retries responses retries).1 ≠
        .failure .timeout := by
  induction responses with
  | nil => intro retries; simp [pollGo]
  | cons r rest ih =>
    intro retries
    by_cases h200 : r.status = 200
    · cases hj : r.job with
      | none => simp [pollGo, h200, hj]
      | some data =>
        cases hd : VerifyJobStatus.from_u8 data.status with
        | none => simp [pollGo, h200, hj, hd]
        | some st =>
          cases st
          · simpa [pollGo, h200, hj, hd] using ih (retries + 1)
          · simpa [pollGo, h200, hj, hd] using ih (retries + 1)
          · simp [pollGo, h200, hj, hd]
          · simp [pollGo, h200, hj, hd]
          · simp [pollGo, h200, hj, hd]
    · by_cases h404 : r.status = 404
      · simp [pollGo, h200, h404]
      · simp [pollGo, h200, h404]

/-- Claim C1: on a 200 response whose body decodes, the poll loop acts on
the decoded job status as a state machine: Success returns the full
record, Fail returns the verification-failure error carrying the status
description or the unknown-failure placeholder, CompileFailed returns the
compilation-failure error under the same description rule, and Submitted
or Compiled does not return (when the retry ceiling does not trip, the
loop carries on over the remaining responses, with one more request and
one more sleep). -/
theorem poll_status_state_machine (use_max : Bool) (max_retries : Nat)
    (r : PollResponse) (rest : List PollResponse) (retries : Nat)
    (data : VerificationJob) (h200 : r.status = 200)
    (hjob : r.job = some data) :
    (VerifyJobStatus.from_u8 data.status = some .Success →
      pollGo use_max max_retries (r :: rest) retries =
        (.success data, 1, 0)) ∧
    (VerifyJobStatus.from_u8 data.status = some .Fail →
      pollGo use_max max_retries (r :: rest) retries =
        (.failure (.verifyFail
          (data.status_description.getD "unknown failure")), 1, 0)) ∧
    (VerifyJobStatus.from_u8 data.status = some .CompileFailed →
      pollGo use_max max_retries (r :: rest) retries =
        (.failure (.compileFail
          (data.status_description.getD "unknown failure")), 1, 0)) ∧
    ((VerifyJobStatus.from_u8 data.status = some .Submitted ∨
      VerifyJobStatus.from_u8 data.status = some .Compiled) →
      ¬(use_max = true ∧ max_retries < retries + 1) →
      pollGo use_max max_retries (r :: rest) retries =
        ((pollGo use_max max_retries rest (retries + 1)).1,
         (pollGo use_max max_retries rest (retries + 1)).2.1 + 1,
         (pollGo use_max max_retries rest (retries + 1)).2.2 + 1)) := by
  refine ⟨fun hs => ?_, fun hs => ?_, fun hs => ?_, fun hs hno => ?_⟩
  · simp [pollGo, h200, hjob, hs]
  · simp [pollGo, h200, hjob, hs]
  · simp [pollGo, h200, hjob, hs]
  · have hcond : (use_max && decide (max_retries < retries + 1)) ≠
        true := fun hcontra => hno (by simpa using hcontra)
    rcases hs with hs | hs <;> simp [pollGo, h200, hjob, hs, hcond]

/-- Witness for the poll state machine at a concrete Success response. -/
theorem poll_status_state_machine_witness :
    pollGo false 2
      [⟨200, "", some ⟨"job1", 4, none, "hash1", none, none, none, none,
        none, none, none⟩⟩] 0 =
      (.success ⟨"job1", 4, none, "hash1", none, none, none, none, none,
        none, none⟩, 1, 0) :=
  (poll_status_state_machine false 2
    ⟨200, "", some ⟨"job1", 4, none, "hash1", none, none, none, none,
      none, none, none⟩⟩ [] 0
    ⟨"job1", 4, none, "hash1", none, none, none, none, none, none, none⟩
    rfl rfl).1 (by decide)

/-- Claim C6: within the poll loop, a 404 response returns the fatal
job-not-found error and any other non-200 response returns the fatal
protocol error carrying the status code and body text; both exit at once
with a single request issued, no sleep performed, and a result
independent of every later response, so non-200 responses are never
retried. -/
theorem poll_non_200_fatal (use_max : Bool) (max_retries : Nat)
    (r : PollResponse) (rest : List PollResponse) (retries : Nat) :
    (r.status = 404 →
      pollGo use_max max_retries (r :: rest) retries =
        (.failure .jobNotFound, 1, 0)) ∧
    (r.status ≠ 200 → r.status ≠ 404 →
      pollGo use_max max_retries (r :: rest) retries =
        (.failure (.unexpectedStatus r.status r.text), 1, 0)) := by
  refine ⟨fun h => ?_, fun h1 h2 => ?_⟩
  · simp [pollGo, h]
  · simp [pollGo, h1, h2]

/-- Witness for the non-200 poll behaviour at a concrete 404 and a
concrete 500 response. -/
theorem poll_non_200_fatal_witness :
    pollGo false 0 [⟨404, "nf", none⟩, ⟨200, "", none⟩] 0 =
      (.failure .jobNotFound, 1, 0) ∧
    pollGo true 7 [⟨500, "boom", none⟩] 3 =
      (.failure (.unexpectedStatus 500 "boom"), 1, 0) :=
  ⟨(poll_non_200_fatal false 0 ⟨404, "nf", none⟩ [⟨200, "", none⟩] 0).1
      rfl,
   (poll_non_200_fatal true 7 ⟨500, "boom", none⟩ [] 3).2
      (by decide) (by decide)⟩

/-- Claim C5: a sleep happens only after a non-terminal response that
does not trip the retry ceiling: against the sequence Submitted,
Compiled, Success the loop succeeds on the third response with exactly
two inter-poll sleeps, and against Fail on the first response it returns
the job-failure error at once with zero sleeps. -/
theorem poll_sleep_accounting (env : Env) (max_retries : Nat)
    (d1 d2 d3 df : VerificationJob) (t1 t2 t3 tf : String)
    (hflag : use_max_retries env = false)
    (hs1 : d1.status = 0) (hs2 : d2.status = 1) (hs3 : d3.status = 4)
    (hsf : df.status = 3) :
    poll_verification_status env max_retries
        [⟨200, t1, some d1⟩, ⟨200, t2, some d2⟩, ⟨200, t3, some d3⟩] =
      (.success d3, 3, 2) ∧
    poll_verification_status env max_retries [⟨200, tf, some df⟩] =
      (.failure (.verifyFail
        (df.status_description.getD "unknown failure")), 1, 0) := by
  constructor
  · simp [poll_verification_status, hflag, pollGo, hs1, hs2, hs3,
      VerifyJobStatus.from_u8]
  · simp [poll_verification_status, hflag, pollGo, hsf,
      VerifyJobStatus.from_u8]

/-- Witness for the sleep accounting with concrete job records and the
empty environment. -/
theorem poll_sleep_accounting_witness :
    poll_verification_status (fun _ => none) 9
        [⟨200, "", some ⟨"j", 0, none, "h", none, none, none, none, none,
          none, none⟩⟩,
         ⟨200, "", some ⟨"j", 1, none, "h", none, none, none, none, none,
          none, none⟩⟩,
         ⟨200, "", some ⟨"j", 4, none, "h", none, none, none, none, none,
          none, none⟩⟩] =
      (.success ⟨"j", 4, none, "h", none, none, none, none, none, none,
        none⟩, 3, 2) ∧
    poll_verification_status (fun _ => none) 9
        [⟨200, "", some ⟨"j", 3, some "boom", "h", none, none, none, none,
          none, none, none⟩⟩] =
      (.failure (.verifyFail "boom"), 1, 0) :=
  ⟨(poll_sleep_accounting (fun _ => none) 9
      ⟨"j", 0, none, "h", none, none, none, none, none, none, none⟩
      ⟨"j", 1, none, "h", none, none, none, none, none, none, none⟩
      ⟨"j", 4, none, "h", none, none, none, none, none, none, none⟩
      ⟨"j", 3, some "boom", "h", none, none, none, none, none, none, none⟩
      "" "" "" "" rfl rfl rfl rfl rfl).1,
   (poll_sleep_accounting (fun _ => none) 9
      ⟨"j", 0, none, "h", none, none, none, none, none, none, none⟩
      ⟨"j", 1, none, "h", none, none, none, none, none, none, none⟩
      ⟨"j", 4, none, "h", none, none, none, none, none, none, none⟩
      ⟨"j", 3, some "boom", "h", none, none, none, none, none, none, none⟩
      "" "" "" "" rfl rfl rfl rfl rfl).2⟩

/-- Claim C4: with the bounded-retry flag set and max_retries at 2, a
sequence of four (or more) all-Submitted 200 responses ends with the
timeout error when the third retry increment exceeds the ceiling, after
exactly three status requests and two sleeps; the timeout error is a
different error from the job-failure errors; and with the flag unset the
retry counter never ends the loop, whatever the ceiling and the
responses. -/
theorem poll_retry_ceiling (env : Env) (r1 r2 r3 r4 : PollResponse)
    (rest : List PollResponse) (d1 d2 d3 d4 : VerificationJob)
    (hflag : use_max_retries env = true)
    (h1 : r1.status = 200) (hj1 : r1.job = some d1) (hs1 : d1.status = 0)
    (h2 : r2.status = 200) (hj2 : r2.job = some d2) (hs2 : d2.status = 0)
    (h3 : r3.status = 200) (hj3 : r3.job = some d3) (hs3 : d3.status = 0)
    (h4 : r4.status = 200) (hj4 : r4.job = some d4)
    (hs4 : d4.status = 0) :
    poll_verification_status env 2 (r1 :: r2 :: r3 :: r4 :: rest) =
      (.failure .timeout, 3, 2) ∧
    (∀ d, PollError.timeout ≠ PollError.verifyFail d ∧
      PollError.timeout ≠ PollError.compileFail d) ∧
    (∀ (env' : Env) (ceiling : Nat) (responses : List PollResponse),
      use_max_retries env' = false →
      (poll_verification_status env' ceiling responses).1 ≠
        .failure .timeout) := by
  refine ⟨?_, fun d => ⟨by simp, by simp⟩,
    fun env' ceiling responses hf => ?_⟩
  · simp [poll_verification_status, hflag, pollGo, h1, hj1, hs1, h2, hj2,
      hs2, h3, hj3, hs3, VerifyJobStatus.from_u8]
  · simpa [poll_verification_status, hf] using
      pollGo_no_timeout ceiling responses 0

/-- Witness for the retry ceiling with the flag variable set to true and
four concrete Submitted responses. -/
theorem poll_retry_ceiling_witness :
    poll_verification_status
      (fun k => if k = "USE_POLLING_MAX_RETRIES" then some "true"
                else none) 2
      [⟨200, "", some ⟨"j", 0, none, "h", none, none, none, none, none,
        none, none⟩⟩,
       ⟨200, "", some ⟨"j", 0, none, "h", none, none, none, none, none,
        none, none⟩⟩,
       ⟨200, "", some ⟨"j", 0, none, "h", none, none, none, none, none,
        none, none⟩⟩,
       ⟨200, "", some ⟨"j", 0, none, "h", none, none, none, none, none,
        none, none⟩⟩] =
      (.failure .timeout, 3, 2) :=
  (poll_retry_ceiling
    (fun k => if k = "USE_POLLING_MAX_RETRIES" then some "true" else none)
    ⟨200, "", some ⟨"j", 0, none, "h", none, none, none, none, none,
      none, none⟩⟩
    ⟨200, "", some ⟨"j", 0, none, "h", none, none, none, none, none,
      none, none⟩⟩
    ⟨200, "", some ⟨"j", 0, none, "h", none, none, none, none, none,
      none, none⟩⟩
    ⟨200, "", some ⟨"j", 0, none, "h", none, none, none, none, none,
      none, none⟩⟩
    []
    ⟨"j", 0, none, "h", none, none, none, none, none, none, none⟩
    ⟨"j", 0, none, "h", none, none, none, none, none, none, none⟩
    ⟨"j", 0, none, "h", none, none, none, none, none, none, none⟩
    ⟨"j", 0, none, "h", none, none, none, none, none, none, none⟩
    (by decide) rfl rfl rfl rfl rfl rfl rfl rfl rfl rfl rfl rfl).1
